import Mathlib

/-!
Shallow embedding of the dispatchbot notification pipeline.

The queue (src/queues/notifyQueue.ts) persists `NotificationItem` documents in a
MongoDB collection; we model the collection as a `List NotificationItem` and each
queue method as a pure state-passing function.  Mongo's `updateOne` applies the
update to the first document matching the filter and reports whether a document
was actually modified; `updateMany` applies it to every match and reports the
number of modified documents.  Dates are modelled as natural numbers
(milliseconds); every method that calls `new Date()` takes the current time
`now` as an explicit argument.

The status translator (src/index.ts, handleAutomaticRideStatusChange) and the
event constructors (src/events/rideEvents.ts) are modelled as pure functions
returning the list of ride events created by one invocation.
-/

namespace DispatchBot

/-- Delivery status of a queued notification (the `status` field of
`NotificationItem` in src/queues/notifyQueue.ts). -/
inductive Status where
  | pending
  | processing
  | sent
  | failed
  | cancelled
deriving DecidableEq

/-- One entry of the `metadata.errors` array pushed by `markNotificationFailed`. -/
structure ErrorEntry where
  timestamp : Nat
  error : String
  retryCount : Nat
deriving DecidableEq

/-- The `NotificationItem` document of src/queues/notifyQueue.ts.  The open
`metadata` map is narrowed to the two entries the queue code itself reads or
writes: `metadata.rideRequestUuid` (used by `cancelRideNotifications`) and
`metadata.errors` (appended by `markNotificationFailed`). -/
structure NotificationItem where
  id : String
  type : String
  recipient : String
  message : String
  priority : String
  scheduledTime : Option Nat
  retryCount : Nat
  maxRetries : Nat
  status : Status
  rideRequestUuid : Option String
  errors : List ErrorEntry
  createdAt : Nat
  updatedAt : Nat
deriving DecidableEq

/-- The `QueueConfig` of src/queues/notifyQueue.ts. -/
structure QueueConfig where
  maxConcurrent : Nat
  retryDelays : List Nat
  maxRetries : Nat
  batchSize : Nat
  processInterval : Nat
deriving DecidableEq

/-- The defaults installed by the `NotificationQueue` constructor. -/
def defaultConfig : QueueConfig :=
  { maxConcurrent := 5
    retryDelays := [1000, 5000, 15000, 60000]
    maxRetries := 3
    batchSize := 10
    processInterval := 1000 }

/-- Mongo `collection.updateOne filter update`: rewrite the first document
matching `p` with `f`; the boolean is `result.modifiedCount > 0`, i.e. whether a
matched document actually changed. -/
def updateOne (p : NotificationItem → Bool) (f : NotificationItem → NotificationItem) :
    List NotificationItem → List NotificationItem × Bool
  | [] => ([], false)
  | x :: xs =>
    if p x then
      (f x :: xs, decide (f x ≠ x))
    else
      let r := updateOne p f xs
      (x :: r.1, r.2)

/-- Mongo `collection.updateMany filter update`: rewrite every document
matching `p` with `f`; the count is `result.modifiedCount`, the number of
matched documents that actually changed. -/
def updateMany (p : NotificationItem → Bool) (f : NotificationItem → NotificationItem)
    (q : List NotificationItem) : List NotificationItem × Nat :=
  (q.map fun n => if p n then f n else n,
   q.countP fun n => p n && decide (f n ≠ n))

/-- The filter of `getPendingNotifications`:
`{status:'pending', $or:[{scheduledTime:{$exists:false}}, {scheduledTime:{$lte:new Date()}}]}`. -/
def isEligiblePending (now : Nat) (n : NotificationItem) : Bool :=
  n.status == Status.pending &&
    (match n.scheduledTime with
     | none => true
     | some t => decide (t ≤ now))

/-- Insert `x` into `l` before the first element `y` with `le x y`. -/
def insertLe {α : Type} (le : α → α → Bool) (x : α) : List α → List α
  | [] => [x]
  | y :: ys => if le x y then x :: y :: ys else y :: insertLe le x ys

/-- Insertion sort by the boolean relation `le`. -/
def sortLe {α : Type} (le : α → α → Bool) : List α → List α
  | [] => []
  | x :: xs => insertLe le x (sortLe le xs)

/-- Lexicographic order on character lists by code point, the order Mongo's
binary UTF-8 string comparison induces on these ASCII values. -/
def charsLt : List Char → List Char → Bool
  | [], [] => false
  | [], _ :: _ => true
  | _ :: _, [] => false
  | c :: cs, d :: ds =>
    if c.toNat < d.toNat then true
    else if d.toNat < c.toNat then false
    else charsLt cs ds

/-- Mongo's string comparison, strictly-less-than. -/
def strLtB (a b : String) : Bool :=
  charsLt a.data b.data

/-- The Mongo sort key `.sort({priority: -1, createdAt: 1})`.  `priority` is a
string field, so Mongo's descending comparison is reverse lexicographic on the
string values; ties are broken by `createdAt` ascending. -/
def notifLE (a b : NotificationItem) : Bool :=
  strLtB b.priority a.priority ||
    (a.priority == b.priority && decide (a.createdAt ≤ b.createdAt))

/-- `getPendingNotifications(limit)`: pending documents whose `scheduledTime` is
absent or ≤ now, sorted by `{priority: -1, createdAt: 1}`, truncated to `limit`
(the caller defaults `limit` to `config.batchSize`). -/
def getPendingNotifications (now limit : Nat) (q : List NotificationItem) :
    List NotificationItem :=
  (sortLe notifLE (q.filter (isEligiblePending now))).take limit

/-- `getProcessingNotifications(limit)`: documents with status processing, same
sort and truncation. -/
def getProcessingNotifications (limit : Nat) (q : List NotificationItem) :
    List NotificationItem :=
  (sortLe notifLE (q.filter (fun n => n.status == Status.processing))).take limit

/-- `markNotificationProcessing(id)`: `updateOne({id, status:'pending'},
{$set:{status:'processing', updatedAt:new Date()}})`, returning
`modifiedCount > 0`. -/
def markNotificationProcessing (now : Nat) (id : String)
    (q : List NotificationItem) : List NotificationItem × Bool :=
  updateOne (fun n => n.id == id && n.status == Status.pending)
    (fun n => { n with status := Status.processing, updatedAt := now }) q

/-- `markNotificationSent(id)`: `updateOne({id}, {$set:{status:'sent',
updatedAt:new Date()}})` — the filter carries no status condition. -/
def markNotificationSent (now : Nat) (id : String)
    (q : List NotificationItem) : List NotificationItem × Bool :=
  updateOne (fun n => n.id == id)
    (fun n => { n with status := Status.sent, updatedAt := now }) q

/-- The JS expression `this.config.retryDelays[notification.retryCount] || 60000`:
an out-of-range index yields `undefined` and a stored `0` is falsy, so both fall
back to 60000. -/
def jsRetryDelay (cfg : QueueConfig) (rc : Nat) : Nat :=
  match cfg.retryDelays.get? rc with
  | some d => if d = 0 then 60000 else d
  | none => 60000

/-- `markNotificationFailed(id, error)`: `findOne({id})`; if absent return false;
otherwise `shouldRetry = notification.retryCount < config.maxRetries` (the queue
config bound, not the item's own `maxRetries` field) decides between
status pending with `scheduledTime = now + retryDelay` and status failed with
`scheduledTime` cleared; either way `retryCount` becomes
`notification.retryCount + 1` and an entry is pushed onto `metadata.errors`. -/
def markNotificationFailed (cfg : QueueConfig) (now : Nat) (id err : String)
    (q : List NotificationItem) : List NotificationItem × Bool :=
  match q.find? (fun n => n.id == id) with
  | none => (q, false)
  | some notification =>
    let shouldRetry : Bool := decide (notification.retryCount < cfg.maxRetries)
    let sched : Option Nat :=
      if shouldRetry then some (now + jsRetryDelay cfg notification.retryCount) else none
    updateOne (fun n => n.id == id)
      (fun n =>
        { n with
          status := if shouldRetry then Status.pending else Status.failed
          retryCount := notification.retryCount + 1
          scheduledTime := sched
          errors := n.errors ++ [⟨now, err, notification.retryCount + 1⟩]
          updatedAt := now }) q

/-- `cancelNotification(id)`: `updateOne({id}, {$set:{status:'cancelled',
updatedAt:new Date()}})` — the filter carries no status condition. -/
def cancelNotification (now : Nat) (id : String)
    (q : List NotificationItem) : List NotificationItem × Bool :=
  updateOne (fun n => n.id == id)
    (fun n => { n with status := Status.cancelled, updatedAt := now }) q

/-- `cancelRideNotifications(rideRequestUuid)`:
`updateMany({'metadata.rideRequestUuid': rid, status:{$in:['pending','processing']}},
{$set:{status:'cancelled', updatedAt:new Date()}})`, returning `modifiedCount`. -/
def cancelRideNotifications (now : Nat) (rid : String)
    (q : List NotificationItem) : List NotificationItem × Nat :=
  updateMany
    (fun n => n.rideRequestUuid == some rid &&
      (n.status == Status.pending || n.status == Status.processing))
    (fun n => { n with status := Status.cancelled, updatedAt := now }) q

/-- Result record of `getQueueStats()`: the declared return type has a field per
status except `cancelled`, plus `total`. -/
structure QueueStats where
  pending : Nat
  processing : Nat
  sent : Nat
  failed : Nat
  total : Nat
deriving DecidableEq

/-- Number of queue documents currently in status `s` (one `$group` bucket of
the `getQueueStats` aggregation). -/
def statusCount (q : List NotificationItem) (s : Status) : Nat :=
  q.countP (fun n => n.status == s)

/-- `getQueueStats()`: the aggregation groups documents by status; the `forEach`
writes the buckets named pending/processing/sent/failed into the record fields
and adds every bucket's count — the cancelled bucket included, though it has no
declared field — into `total`. -/
def getQueueStats (q : List NotificationItem) : QueueStats :=
  { pending := statusCount q Status.pending
    processing := statusCount q Status.processing
    sent := statusCount q Status.sent
    failed := statusCount q Status.failed
    total := statusCount q Status.pending + statusCount q Status.processing +
      statusCount q Status.sent + statusCount q Status.failed +
      statusCount q Status.cancelled }

/-- The staleness check of `processNotificationQueue` (src/index.ts): the tick
concatenates `getPendingNotifications()` and `getProcessingNotifications()` and,
for each listed item, computes `Date.now() - notification.createdAt.getTime()`
and calls `markNotificationFailed` when that exceeds 30000 ms.  This returns the
items the sweep marks failed on one tick. -/
def staleSweepTargets (cfg : QueueConfig) (now : Nat) (q : List NotificationItem) :
    List NotificationItem :=
  (getPendingNotifications now cfg.batchSize q ++
    getProcessingNotifications cfg.batchSize q).filter
      (fun n => decide (30000 < now - n.createdAt))

/-- The `RideEventType` enum of src/events/rideEvents.ts. -/
inductive RideEventType where
  | REQUEST_CREATED
  | REQUEST_CONFIRMED
  | REQUEST_CANCELED
  | DRIVER_ASSIGNED
  | VEHICLE_ASSIGNED
  | RIDE_STARTED
  | RIDE_INTERRUPTED
  | RIDER_PICKED_UP
  | RIDER_NOT_PICKED_UP
  | RIDER_DROPPED_OFF
  | RIDER_NOT_DROPPED_OFF
  | ROUNDTRIP_RETURNING
  | ROUNDTRIP_RETURN_INTERRUPTED
  | ROUNDTRIP_COMPLETE
  | ROUNDTRIP_COMPLETION_INTERRUPTED
  | RIDE_COMPLETE
  | RIDE_INCOMPLETE
  | EMERGENCY_ALERT
deriving DecidableEq

/-- A `RideEvent` as constructed by the `RideEventManager` methods.  Each method
builds exactly one event, stores it and emits it once; `driverStr` and
`vehicleStr` keep the string arguments the methods receive (the source then
applies `parseInt`), `reason` keeps the reason placed into `metadata`. -/
structure RideEvent where
  rideRequestUuid : Nat
  serviceUserUuid : String
  driverStr : Option String
  vehicleStr : Option String
  reason : Option String
  eventType : RideEventType
deriving DecidableEq

/-- `RideEventManager.requestConfirmed`. -/
def requestConfirmed (rideRequestUuid : Nat) (serviceUserUuid : String) : RideEvent :=
  ⟨rideRequestUuid, serviceUserUuid, none, none, none, RideEventType.REQUEST_CONFIRMED⟩

/-- `RideEventManager.requestCanceled`. -/
def requestCanceled (rideRequestUuid : Nat) (serviceUserUuid reason : String) : RideEvent :=
  ⟨rideRequestUuid, serviceUserUuid, none, none, some reason, RideEventType.REQUEST_CANCELED⟩

/-- `RideEventManager.rideStarted`. -/
def rideStarted (rideRequestUuid : Nat) (serviceUserUuid driverUuid vehicleUuid : String) :
    RideEvent :=
  ⟨rideRequestUuid, serviceUserUuid, some driverUuid, some vehicleUuid, none,
    RideEventType.RIDE_STARTED⟩

/-- `RideEventManager.rideInterrupted`. -/
def rideInterrupted (rideRequestUuid : Nat) (serviceUserUuid reason : String) : RideEvent :=
  ⟨rideRequestUuid, serviceUserUuid, none, none, some reason, RideEventType.RIDE_INTERRUPTED⟩

/-- `RideEventManager.riderPickedUp`. -/
def riderPickedUp (rideRequestUuid : Nat) (serviceUserUuid driverUuid : String) : RideEvent :=
  ⟨rideRequestUuid, serviceUserUuid, some driverUuid, none, none,
    RideEventType.RIDER_PICKED_UP⟩

/-- `RideEventManager.riderNotPickedUp`. -/
def riderNotPickedUp (rideRequestUuid : Nat) (serviceUserUuid reason : String) : RideEvent :=
  ⟨rideRequestUuid, serviceUserUuid, none, none, some reason,
    RideEventType.RIDER_NOT_PICKED_UP⟩

/-- `RideEventManager.riderDroppedOff`. -/
def riderDroppedOff (rideRequestUuid : Nat) (serviceUserUuid driverUuid : String) : RideEvent :=
  ⟨rideRequestUuid, serviceUserUuid, some driverUuid, none, none,
    RideEventType.RIDER_DROPPED_OFF⟩

/-- `RideEventManager.riderNotDroppedOff`. -/
def riderNotDroppedOff (rideRequestUuid : Nat) (serviceUserUuid reason : String) : RideEvent :=
  ⟨rideRequestUuid, serviceUserUuid, none, none, some reason,
    RideEventType.RIDER_NOT_DROPPED_OFF⟩

/-- `RideEventManager.roundtripReturning`. -/
def roundtripReturning (rideRequestUuid : Nat) (serviceUserUuid driverUuid : String) :
    RideEvent :=
  ⟨rideRequestUuid, serviceUserUuid, some driverUuid, none, none,
    RideEventType.ROUNDTRIP_RETURNING⟩

/-- `RideEventManager.roundtripReturnInterrupted`. -/
def roundtripReturnInterrupted (rideRequestUuid : Nat) (serviceUserUuid reason : String) :
    RideEvent :=
  ⟨rideRequestUuid, serviceUserUuid, none, none, some reason,
    RideEventType.ROUNDTRIP_RETURN_INTERRUPTED⟩

/-- `RideEventManager.roundtripComplete`. -/
def roundtripComplete (rideRequestUuid : Nat) (serviceUserUuid driverUuid : String) :
    RideEvent :=
  ⟨rideRequestUuid, serviceUserUuid, some driverUuid, none, none,
    RideEventType.ROUNDTRIP_COMPLETE⟩

/-- `RideEventManager.roundtripCompletionInterrupted`. -/
def roundtripCompletionInterrupted (rideRequestUuid : Nat) (serviceUserUuid reason : String) :
    RideEvent :=
  ⟨rideRequestUuid, serviceUserUuid, none, none, some reason,
    RideEventType.ROUNDTRIP_COMPLETION_INTERRUPTED⟩

/-- `RideEventManager.rideComplete`. -/
def rideComplete (rideRequestUuid : Nat) (serviceUserUuid driverUuid : String) : RideEvent :=
  ⟨rideRequestUuid, serviceUserUuid, some driverUuid, none, none,
    RideEventType.RIDE_COMPLETE⟩

/-- `RideEventManager.rideIncomplete`. -/
def rideIncomplete (rideRequestUuid : Nat) (serviceUserUuid reason : String) : RideEvent :=
  ⟨rideRequestUuid, serviceUserUuid, none, none, some reason,
    RideEventType.RIDE_INCOMPLETE⟩

/-- The fields of the ride record that `handleAutomaticRideStatusChange` reads. -/
structure RideRequestRec where
  uuid : Nat
  serviceUserUuid : String
  assignedDriverUuid : Option Nat
  assignedVehicleUuid : Option Nat
deriving DecidableEq

/-- The JS expression `rideRequest.assignedDriverUuid?.toString() || ''`. -/
def optUuidStr (o : Option Nat) : String :=
  match o with
  | some d => toString d
  | none => ""

/-- `handleAutomaticRideStatusChange` (src/index.ts): the switch on the new
ride-progress status code; each case calls one `RideEventManager` method, which
creates exactly one event; codes outside the table create none.  The result is
the list of events created by one invocation. -/
def handleAutomaticRideStatusChange (r : RideRequestRec) (newStatus : Nat) :
    List RideEvent :=
  match newStatus with
  | 100 => [requestConfirmed r.uuid r.serviceUserUuid]
  | 109 => [requestCanceled r.uuid r.serviceUserUuid "Cancelled automatically"]
  | 200 => [rideStarted r.uuid r.serviceUserUuid (optUuidStr r.assignedDriverUuid)
      (optUuidStr r.assignedVehicleUuid)]
  | 209 => [rideInterrupted r.uuid r.serviceUserUuid "Ride interrupted"]
  | 300 => [riderPickedUp r.uuid r.serviceUserUuid (optUuidStr r.assignedDriverUuid)]
  | 309 => [riderNotPickedUp r.uuid r.serviceUserUuid "Rider not picked up"]
  | 400 => [riderDroppedOff r.uuid r.serviceUserUuid (optUuidStr r.assignedDriverUuid)]
  | 409 => [riderNotDroppedOff r.uuid r.serviceUserUuid "Rider not dropped off"]
  | 450 => [roundtripReturning r.uuid r.serviceUserUuid (optUuidStr r.assignedDriverUuid)]
  | 459 => [roundtripReturnInterrupted r.uuid r.serviceUserUuid "Roundtrip return interrupted"]
  | 475 => [roundtripComplete r.uuid r.serviceUserUuid (optUuidStr r.assignedDriverUuid)]
  | 479 => [roundtripCompletionInterrupted r.uuid r.serviceUserUuid
      "Roundtrip completion interrupted"]
  | 500 => [rideComplete r.uuid r.serviceUserUuid (optUuidStr r.assignedDriverUuid)]
  | 509 => [rideIncomplete r.uuid r.serviceUserUuid "Ride marked as incomplete"]
  | _ => []

/-- A concrete baseline notification document used by the concrete instances
below: freshly enqueued (status pending, retryCount 0) with no scheduledTime. -/
def baseItem : NotificationItem :=
  { id := "n1", type := "sms", recipient := "+15550100", message := "hello",
    priority := "medium", scheduledTime := none, retryCount := 0, maxRetries := 3,
    status := Status.pending, rideRequestUuid := some "ride-1", errors := [],
    createdAt := 0, updatedAt := 0 }

/-- A family of eligible pending documents distinguished by id and createdAt. -/
def pendItem (i : Nat) : NotificationItem :=
  { baseItem with id := "p" ++ toString i, createdAt := i }

/-- Eleven eligible pending documents, one more than the default batchSize. -/
def q11 : List NotificationItem :=
  (List.range 11).map (fun i => pendItem (i + 1))

/-- A concrete queue mixing documents tied to ride-1 (one pending, one sent)
with a processing document tied to a different ride. -/
def qCorr : List NotificationItem :=
  [baseItem,
   { baseItem with id := "n2", status := Status.sent },
   { baseItem with
      id := "n3"
      rideRequestUuid := some "ride-2"
      status := Status.processing }]

/-- A concrete ride record for instances of the status-translator claims. -/
def rideSample : RideRequestRec :=
  { uuid := 7, serviceUserUuid := "R", assignedDriverUuid := some 3,
    assignedVehicleUuid := none }

theorem insertLe_perm {α : Type} (le : α → α → Bool) (x : α) (l : List α) :
    (insertLe le x l).Perm (x :: l) := by
  induction l with
  | nil => exact List.Perm.refl _
  | cons y ys ih =>
    simp only [insertLe]
    split
    · exact List.Perm.refl _
    · exact (ih.cons y).trans (List.Perm.swap x y ys)

theorem sortLe_perm {α : Type} (le : α → α → Bool) (l : List α) :
    (sortLe le l).Perm l := by
  induction l with
  | nil => exact List.Perm.refl _
  | cons x xs ih => exact (insertLe_perm le x (sortLe le xs)).trans (ih.cons x)

theorem updateOne_of_no_match (p : NotificationItem → Bool)
    (f : NotificationItem → NotificationItem) :
    ∀ q : List NotificationItem, (∀ n ∈ q, p n = false) → updateOne p f q = (q, false) := by
  intro q
  induction q with
  | nil => intro _; rfl
  | cons x xs ih =>
    intro h
    have hx : p x = false := h x (List.mem_cons_self x xs)
    simp [updateOne, hx, ih (fun n hn => h n (List.mem_cons_of_mem x hn))]

theorem updateOne_snd_true_iff (p : NotificationItem → Bool)
    (f : NotificationItem → NotificationItem)
    (hf : ∀ n, p n = true → f n ≠ n) (q : List NotificationItem) :
    (updateOne p f q).2 = true ↔ ∃ n ∈ q, p n = true := by
  induction q with
  | nil => simp [updateOne]
  | cons x xs ih =>
    by_cases hx : p x = true
    · simp [updateOne, hx, hf x hx]
    · simp [updateOne, hx, ih]

theorem updateOne_fst_of_snd_false (p : NotificationItem → Bool)
    (f : NotificationItem → NotificationItem)
    (hf : ∀ n, p n = true → f n ≠ n) (q : List NotificationItem)
    (h : (updateOne p f q).2 = false) : (updateOne p f q).1 = q := by
  have hno : ¬ ∃ n ∈ q, p n = true := fun hex => by
    have htrue := (updateOne_snd_true_iff p f hf q).mpr hex
    rw [h] at htrue
    exact Bool.false_ne_true htrue
  have hall : ∀ n ∈ q, p n = false := by
    intro n hn
    by_contra hc
    exact hno ⟨n, hn, by simpa using hc⟩
  simp [updateOne_of_no_match p f q hall]

theorem mem_updateOne_fst (p : NotificationItem → Bool)
    (f : NotificationItem → NotificationItem) :
    ∀ (q : List NotificationItem) (m : NotificationItem), m ∈ (updateOne p f q).1 →
      m ∈ q ∨ ∃ n ∈ q, p n = true ∧ m = f n := by
  intro q
  induction q with
  | nil => intro m hm; simp [updateOne] at hm
  | cons x xs ih =>
    intro m hm
    by_cases hx : p x = true
    · rw [show (updateOne p f (x :: xs)).1 = f x :: xs from by simp [updateOne, hx]] at hm
      rcases List.mem_cons.mp hm with h1 | h1
      · exact Or.inr ⟨x, List.mem_cons_self x xs, hx, h1⟩
      · exact Or.inl (List.mem_cons_of_mem x h1)
    · rw [show (updateOne p f (x :: xs)).1 = x :: (updateOne p f xs).1 from by
        simp [updateOne, hx]] at hm
      rcases List.mem_cons.mp hm with h1 | h1
      · exact Or.inl (h1 ▸ List.mem_cons_self x xs)
      · rcases ih m h1 with h2 | ⟨n, hn, hpn, hmn⟩
        · exact Or.inl (List.mem_cons_of_mem x h2)
        · exact Or.inr ⟨n, List.mem_cons_of_mem x hn, hpn, hmn⟩

theorem updateOne_all_unmatched (p : NotificationItem → Bool)
    (f : NotificationItem → NotificationItem)
    (hpf : ∀ n, p n = true → p (f n) = false) :
    ∀ q : List NotificationItem, q.countP p ≤ 1 →
      ∀ m ∈ (updateOne p f q).1, p m = false := by
  intro q
  induction q with
  | nil => intro _ m hm; simp [updateOne] at hm
  | cons x xs ih =>
    intro hcount m hm
    by_cases hx : p x = true
    · have hxs : xs.countP p = 0 := by
        rw [List.countP_cons, if_pos hx] at hcount
        omega
      rw [show (updateOne p f (x :: xs)).1 = f x :: xs from by simp [updateOne, hx]] at hm
      rcases List.mem_cons.mp hm with h1 | h1
      · rw [h1]; exact hpf x hx
      · have := List.countP_eq_zero.mp hxs m h1
        simpa using this
    · have hcount2 : xs.countP p ≤ 1 := by
        rw [List.countP_cons, if_neg hx] at hcount
        omega
      rw [show (updateOne p f (x :: xs)).1 = x :: (updateOne p f xs).1 from by
        simp [updateOne, hx]] at hm
      rcases List.mem_cons.mp hm with h1 | h1
      · rw [h1]; simpa using hx
      · exact ih hcount2 m h1

/-- Sum over the five statuses of the per-status bucket counts is the number of
documents. -/
theorem statusCount_sum (q : List NotificationItem) :
    statusCount q Status.pending + statusCount q Status.processing +
      statusCount q Status.sent + statusCount q Status.failed +
      statusCount q Status.cancelled = q.length := by
  induction q with
  | nil => rfl
  | cons x xs ih =>
    simp only [statusCount, List.countP_cons, List.length_cons] at ih ⊢
    cases x.status <;> simp <;> omega

/-- C9: getQueueStats reports per-status counts only for pending, processing,
sent and failed, but its total field accumulates every status bucket, the
cancelled bucket included: total = pending + processing + sent + failed +
(number of cancelled documents), which is the full queue length, so total
exceeds the sum of the four reported fields by exactly the cancelled count. -/
theorem C9_stats_total_includes_cancelled (q : List NotificationItem) :
    ((getQueueStats q).total =
      (getQueueStats q).pending + (getQueueStats q).processing +
        (getQueueStats q).sent + (getQueueStats q).failed +
        statusCount q Status.cancelled)
  ∧ (getQueueStats q).total = q.length := by
  exact ⟨rfl, statusCount_sum q⟩

/-- C10: markNotificationFailed on an id with no matching document returns false
and leaves the whole queue state (every field of every item) unchanged. -/
theorem C10_mark_failed_missing_id (cfg : QueueConfig) (now : Nat) (id err : String)
    (q : List NotificationItem) (h : ∀ n ∈ q, n.id ≠ id) :
    markNotificationFailed cfg now id err q = (q, false) := by
  have hfind : q.find? (fun n => n.id == id) = none := by
    rw [List.find?_eq_none]
    intro n hn
    simpa using h n hn
  simp [markNotificationFailed, hfind]

/-- C10 witness: a concrete queue holding one document with id n1, asked to fail
id n2: the call returns false and the queue is untouched. -/
theorem C10_mark_failed_missing_id_witness :
    markNotificationFailed defaultConfig 5 "n2" "err" [baseItem] = ([baseItem], false) :=
  C10_mark_failed_missing_id defaultConfig 5 "n2" "err" [baseItem] (by decide)

set_option maxRecDepth 8192 in
/-- C8: the status translator given ride-progress code 300 emits exactly one
event, of kind RIDER_PICKED_UP, whose subject serviceUserUuid is the ride
record's recipient. -/
theorem C8_picked_up_translation (r : RideRequestRec) :
    ((handleAutomaticRideStatusChange r 300).length = 1)
  ∧ (∀ ev ∈ handleAutomaticRideStatusChange r 300,
      ev.eventType = RideEventType.RIDER_PICKED_UP ∧
        ev.serviceUserUuid = r.serviceUserUuid) := by
  constructor
  · rfl
  · intro ev hev
    simp only [handleAutomaticRideStatusChange, List.mem_singleton] at hev
    rw [hev]
    exact ⟨rfl, rfl⟩

/-- C8 witness: the translation at the concrete ride record. -/
theorem C8_picked_up_translation_witness :
    (handleAutomaticRideStatusChange rideSample 300).length = 1 ∧
      (riderPickedUp 7 "R" "3").eventType = RideEventType.RIDER_PICKED_UP ∧
        (riderPickedUp 7 "R" "3").serviceUserUuid = rideSample.serviceUserUuid :=
  ⟨(C8_picked_up_translation rideSample).1,
    (C8_picked_up_translation rideSample).2 (riderPickedUp 7 "R" "3") (by decide)⟩

/-- C3: the code evaluated at the failing input.  Two pending items enqueued at
the same instant with priorities high and medium: the Mongo sort key
{priority: -1} compares the priority strings, and reverse lexicographic string
order lists the medium item before the high one; over all four tiers the
descending order the code produces is urgent, medium, low, high instead of
urgent, high, medium, low. -/
theorem C3_priority_order_eval :
    ((getPendingNotifications 50 10
        [{ baseItem with id := "A", priority := "high" },
         { baseItem with id := "B", priority := "medium" }]).map (fun n => n.id) =
      ["B", "A"])
  ∧ ((getPendingNotifications 50 10
        [{ baseItem with id := "A", priority := "urgent" },
         { baseItem with id := "B", priority := "high" },
         { baseItem with id := "C", priority := "medium" },
         { baseItem with id := "D", priority := "low" }]).map (fun n => n.priority) =
      ["urgent", "medium", "low", "high"]) := by decide

/-- C7: the code evaluated at the failing input.  The staleness check of
processNotificationQueue measures Date.now() - createdAt over all listed items:
a pending item created 40 s ago that was never claimed is marked failed by the
sweep, and so is a processing item updated (claimed) only 1 s ago, because the
threshold is applied to age since creation, not time spent in processing. -/
theorem C7_stale_sweep_eval :
    ({ baseItem with id := "S" } ∈
        staleSweepTargets defaultConfig 40000 [{ baseItem with id := "S" }])
  ∧ ({ baseItem with id := "S" } : NotificationItem).status = Status.pending
  ∧ ({ baseItem with id := "T", status := Status.processing, updatedAt := 39000 } ∈
        staleSweepTargets defaultConfig 40000
          [{ baseItem with id := "T", status := Status.processing, updatedAt := 39000 }]) := by
  decide

/-- One markNotificationFailed call on a one-document queue, written out: the
document is re-queued or terminally failed according to retryCount versus the
config bound, with retryCount incremented and an error entry appended. -/
theorem markNotificationFailed_singleton (cfg : QueueConfig) (now : Nat) (e id : String)
    (x : NotificationItem) (hid : x.id = id) :
    (markNotificationFailed cfg now id e [x]).1 =
      [{ x with
          status := if x.retryCount < cfg.maxRetries then Status.pending else Status.failed
          retryCount := x.retryCount + 1
          scheduledTime :=
            if x.retryCount < cfg.maxRetries then
              some (now + jsRetryDelay cfg x.retryCount)
            else none
          errors := x.errors ++ [⟨now, e, x.retryCount + 1⟩]
          updatedAt := now }] := by
  subst hid
  by_cases hrc : x.retryCount < cfg.maxRetries <;>
    simp [markNotificationFailed, List.find?, updateOne, hrc]

/-- C1: counterexample — the claimed transition system forbids any edge out of
sent, and allows cancellation from pending or processing only; but
cancelNotification filters on id alone, so a document that is already sent is
moved to cancelled and the call reports success. -/
theorem C1_cex_cancel_sent :
    ((cancelNotification 5 "n1" [{ baseItem with status := Status.sent }]).2 = true)
  ∧ ((cancelNotification 5 "n1" [{ baseItem with status := Status.sent }]).1.map
      (fun n => n.status) = [Status.cancelled]) := by decide

/-- C1 amended: on a one-document queue addressed by its id, the operations
realise these transitions — markNotificationProcessing is the only
status-guarded one (pending→processing, anything else untouched);
markNotificationSent moves any status to sent; markNotificationFailed moves any
status to pending (when retryCount < config.maxRetries) or failed;
cancelNotification moves any status to cancelled; cancelRideNotifications
cancels exactly the matching documents that are pending or processing. -/
theorem C1_amended_transitions (item : NotificationItem) (now : Nat) (e rid : String) :
    ((markNotificationProcessing now item.id [item]).1.map (fun n => n.status) =
      [if item.status = Status.pending then Status.processing else item.status])
  ∧ ((markNotificationSent now item.id [item]).1.map (fun n => n.status) =
      [Status.sent])
  ∧ ((markNotificationFailed defaultConfig now item.id e [item]).1.map (fun n => n.status) =
      [if item.retryCount < defaultConfig.maxRetries then Status.pending else Status.failed])
  ∧ ((cancelNotification now item.id [item]).1.map (fun n => n.status) =
      [Status.cancelled])
  ∧ ((cancelRideNotifications now rid [item]).1.map (fun n => n.status) =
      [if item.rideRequestUuid = some rid ∧
          (item.status = Status.pending ∨ item.status = Status.processing)
        then Status.cancelled else item.status]) := by
  refine ⟨?_, ?_, ?_, ?_, ?_⟩
  · by_cases hst : item.status = Status.pending <;>
      simp [markNotificationProcessing, updateOne, hst]
  · simp [markNotificationSent, updateOne]
  · rw [markNotificationFailed_singleton defaultConfig now e item.id item rfl]
    by_cases hrc : item.retryCount < defaultConfig.maxRetries <;> simp [hrc]
  · simp [cancelNotification, updateOne]
  · by_cases h1 : item.rideRequestUuid = some rid
    · by_cases h2 : item.status = Status.pending ∨ item.status = Status.processing
      · rcases h2 with h2 | h2 <;>
          simp [cancelRideNotifications, updateMany, h1, h2]
      · push_neg at h2
        simp [cancelRideNotifications, updateMany, h1, h2.1, h2.2]
    · simp [cancelRideNotifications, updateMany, h1]

/-- C2: counterexample — with the default config (maxRetries = 3) and an item
whose retryCount starts at 0, the third consecutive markNotificationFailed call
leaves the item pending with retryCount = 3 (not terminally failed as claimed):
shouldRetry compares retryCount with maxRetries before incrementing; the fourth
call then produces status failed with retryCount = 4, exceeding maxRetries. -/
theorem C2_cex_third_failure_still_pending :
    (let q1 := (markNotificationFailed defaultConfig 10 "n1" "e" [baseItem]).1
     let q2 := (markNotificationFailed defaultConfig 20 "n1" "e" q1).1
     let q3 := (markNotificationFailed defaultConfig 30 "n1" "e" q2).1
     let q4 := (markNotificationFailed defaultConfig 40 "n1" "e" q3).1
     (q3.map (fun n => (n.status, n.retryCount)) = [(Status.pending, 3)]) ∧
       (q4.map (fun n => (n.status, n.retryCount)) = [(Status.failed, 4)])) := by
  decide

/-- C2 amended: from retryCount = 0 under the default config, each of the first
three failures re-queues the item as pending with retryCount incremented (so 3
after the third failure); the fourth failure is the one that reaches terminal
failed, with retryCount = 4 — one more than maxRetries; and a later failure call
is not a no-op: it keeps status failed but still increments retryCount. -/
theorem C2_amended_retry_exhaustion (item : NotificationItem) (e : String)
    (t1 t2 t3 t4 t5 : Nat) (h0 : item.retryCount = 0) :
    (let q1 := (markNotificationFailed defaultConfig t1 item.id e [item]).1
     let q2 := (markNotificationFailed defaultConfig t2 item.id e q1).1
     let q3 := (markNotificationFailed defaultConfig t3 item.id e q2).1
     let q4 := (markNotificationFailed defaultConfig t4 item.id e q3).1
     let q5 := (markNotificationFailed defaultConfig t5 item.id e q4).1
     (q1.map (fun n => (n.status, n.retryCount)) = [(Status.pending, 1)]) ∧
       (q2.map (fun n => (n.status, n.retryCount)) = [(Status.pending, 2)]) ∧
       (q3.map (fun n => (n.status, n.retryCount)) = [(Status.pending, 3)]) ∧
       (q4.map (fun n => (n.status, n.retryCount)) = [(Status.failed, 4)]) ∧
       (q5.map (fun n => (n.status, n.retryCount)) = [(Status.failed, 5)])) := by
  simp only [markNotificationFailed_singleton]
  simp [h0, defaultConfig]

/-- C2 amended witness: the trace instantiated at the concrete baseline item,
showing the fourth failure landing on terminal failed with retryCount 4. -/
theorem C2_amended_retry_exhaustion_witness :
    (let q1 := (markNotificationFailed defaultConfig 10 baseItem.id "e" [baseItem]).1
     let q2 := (markNotificationFailed defaultConfig 20 baseItem.id "e" q1).1
     let q3 := (markNotificationFailed defaultConfig 30 baseItem.id "e" q2).1
     let q4 := (markNotificationFailed defaultConfig 40 baseItem.id "e" q3).1
     q4.map (fun n => (n.status, n.retryCount)) = [(Status.failed, 4)]) :=
  (C2_amended_retry_exhaustion baseItem "e" 10 20 30 40 50 rfl).2.2.2.1

/-- C4: markNotificationProcessing is a compare-and-set on the filter
{id, status pending}: it returns true exactly when a pending document with the
id exists; when it returns false the queue is unchanged; every document of the
result is an untouched original or the claimed pending document set to
processing; and when ids are unique a second claim call on the same id fails
after a successful first one. -/
theorem C4_claim_cas (now now2 : Nat) (id : String) (q : List NotificationItem)
    (hq : q.countP (fun n => n.id == id) ≤ 1) :
    ((markNotificationProcessing now id q).2 = true ↔
      ∃ n ∈ q, n.id = id ∧ n.status = Status.pending)
  ∧ ((markNotificationProcessing now id q).2 = false →
      (markNotificationProcessing now id q).1 = q)
  ∧ (∀ m ∈ (markNotificationProcessing now id q).1,
      m ∈ q ∨ ∃ n ∈ q, n.id = id ∧ n.status = Status.pending ∧
        m = { n with status := Status.processing, updatedAt := now })
  ∧ ((markNotificationProcessing now id q).2 = true →
      (markNotificationProcessing now2 id
        (markNotificationProcessing now id q).1).2 = false) := by
  have hf : ∀ t : Nat, ∀ n : NotificationItem,
      (n.id == id && n.status == Status.pending) = true →
      ({ n with status := Status.processing, updatedAt := t } : NotificationItem) ≠ n := by
    intro t n hp heq
    have h2 : n.status = Status.pending := by
      simp only [Bool.and_eq_true, beq_iff_eq] at hp
      exact hp.2
    have h3 := congrArg NotificationItem.status heq
    rw [h2] at h3
    exact Status.noConfusion h3
  have hpf : ∀ n : NotificationItem,
      (n.id == id && n.status == Status.pending) = true →
      (({ n with status := Status.processing, updatedAt := now } : NotificationItem).id == id &&
        ({ n with status := Status.processing, updatedAt := now } :
          NotificationItem).status == Status.pending) = false := by
    intro n _
    simp
  refine ⟨?_, ?_, ?_, ?_⟩
  · constructor
    · intro h
      rcases (updateOne_snd_true_iff _ _ (hf now) q).mp h with ⟨n, hn, hpn⟩
      simp only [Bool.and_eq_true, beq_iff_eq] at hpn
      exact ⟨n, hn, hpn.1, hpn.2⟩
    · rintro ⟨n, hn, hid, hst⟩
      exact (updateOne_snd_true_iff _ _ (hf now) q).mpr ⟨n, hn, by simp [hid, hst]⟩
  · intro hfalse
    exact updateOne_fst_of_snd_false _ _ (hf now) q hfalse
  · intro m hm
    rcases mem_updateOne_fst _ _ q m hm with h | ⟨n, hn, hpn, hmn⟩
    · exact Or.inl h
    · simp only [Bool.and_eq_true, beq_iff_eq] at hpn
      exact Or.inr ⟨n, hn, hpn.1, hpn.2, hmn⟩
  · intro htrue
    have hcount1 : q.countP (fun n => n.id == id && n.status == Status.pending) ≤ 1 := by
      refine le_trans (List.countP_mono_left ?_) hq
      intro n _ hpn
      exact (Bool.and_eq_true _ _).mp hpn |>.1
    have hall := updateOne_all_unmatched _ _ hpf q hcount1
    have hnomatch : ¬ ∃ n ∈ (markNotificationProcessing now id q).1,
        (n.id == id && n.status == Status.pending) = true := by
      rintro ⟨n, hn, hpn⟩
      have hfa := hall n hn
      rw [hfa] at hpn
      exact Bool.false_ne_true hpn
    have hiff := updateOne_snd_true_iff _ _ (hf now2) (markNotificationProcessing now id q).1
    cases hb : (markNotificationProcessing now2 id (markNotificationProcessing now id q).1).2 with
    | false => rfl
    | true => exact absurd (hiff.mp hb) hnomatch

/-- C4 witness: a one-document pending queue: the first claim succeeds, a second
claim on the same id then fails. -/
theorem C4_claim_cas_witness :
    ((markNotificationProcessing 5 "n1" [baseItem]).2 = true) ∧
      ((markNotificationProcessing 6 "n1"
        (markNotificationProcessing 5 "n1" [baseItem]).1).2 = false) := by
  have h := C4_claim_cas 5 6 "n1" [baseItem] (by decide)
  have h1 : (markNotificationProcessing 5 "n1" [baseItem]).2 = true :=
    h.1.mpr ⟨baseItem, by simp, rfl, rfl⟩
  exact ⟨h1, h.2.2.2 h1⟩

set_option maxRecDepth 8192 in
/-- C5: counterexample — the second half of the claim ignores the query limit:
with the default batchSize of 10, a queue of eleven immediately-eligible pending
documents has its eleventh (largest createdAt) document absent from
getPendingNotifications even though its scheduledTime is unset. -/
theorem C5_cex_limit_truncation :
    (pendItem 11 ∈ q11)
  ∧ ((pendItem 11).status = Status.pending)
  ∧ ((pendItem 11).scheduledTime = none)
  ∧ (pendItem 11 ∉ getPendingNotifications 100 defaultConfig.batchSize q11) := by
  decide

/-- C5 amended: a pending document with a future scheduledTime is never listed
by getPendingNotifications (hence never claimed), unconditionally; and once its
scheduledTime is unset or ≤ now, a pending document is listed provided the
number of eligible documents does not exceed the query limit. -/
theorem C5_amended_scheduled_eligibility (now limit : Nat) (q : List NotificationItem)
    (n : NotificationItem) (hn : n ∈ q) :
    (∀ t, n.scheduledTime = some t → now < t →
      n ∉ getPendingNotifications now limit q)
  ∧ ((q.filter (isEligiblePending now)).length ≤ limit → n.status = Status.pending →
      (n.scheduledTime = none ∨ ∃ t, n.scheduledTime = some t ∧ t ≤ now) →
      n ∈ getPendingNotifications now limit q) := by
  constructor
  · intro t hst hlt hmem
    have h1 : n ∈ sortLe notifLE (q.filter (isEligiblePending now)) :=
      List.take_subset _ _ hmem
    have h2 : n ∈ q.filter (isEligiblePending now) :=
      (sortLe_perm notifLE _).mem_iff.mp h1
    have h3 := (List.mem_filter.mp h2).2
    simp only [isEligiblePending, hst, Bool.and_eq_true, decide_eq_true_eq] at h3
    omega
  · intro hlen hst hsched
    have helig : isEligiblePending now n = true := by
      rcases hsched with h | ⟨t, ht, htle⟩ <;>
        simp [isEligiblePending, hst, *]
    have h2 : n ∈ q.filter (isEligiblePending now) := List.mem_filter.mpr ⟨hn, helig⟩
    have h3 : n ∈ sortLe notifLE (q.filter (isEligiblePending now)) :=
      (sortLe_perm notifLE _).mem_iff.mpr h2
    have h4 : (sortLe notifLE (q.filter (isEligiblePending now))).length ≤ limit := by
      rw [(sortLe_perm notifLE _).length_eq]
      exact hlen
    show n ∈ (sortLe notifLE (q.filter (isEligiblePending now))).take limit
    rw [List.take_of_length_le h4]
    exact h3

/-- C5 amended witness: a document scheduled at t = 50 is absent at now = 10; the
unscheduled baseline document is present. -/
theorem C5_amended_scheduled_eligibility_witness :
    ({ baseItem with scheduledTime := some 50 } ∉
        getPendingNotifications 10 10 [{ baseItem with scheduledTime := some 50 }])
  ∧ (baseItem ∈ getPendingNotifications 10 10 [baseItem]) := by
  constructor
  · exact (C5_amended_scheduled_eligibility 10 10 _ _ (by simp)).1 50 rfl (by decide)
  · exact (C5_amended_scheduled_eligibility 10 10 _ _ (by simp)).2 (by decide) rfl (Or.inl rfl)

/-- C6: after cancelRideNotifications with correlation id rid, the queue keeps
its length; position by position, a document tied to rid that was pending or
processing is exactly its cancelled copy and every other document is untouched;
no pending or processing document tied to rid remains; and the returned count is
the number of tied pending-or-processing documents. -/
theorem C6_cancel_by_correlation (now : Nat) (rid : String) (q : List NotificationItem) :
    ((cancelRideNotifications now rid q).1.length = q.length)
  ∧ (∀ i : Nat, (cancelRideNotifications now rid q).1[i]? =
      (q[i]?).map (fun n =>
        if n.rideRequestUuid = some rid ∧
            (n.status = Status.pending ∨ n.status = Status.processing)
          then { n with status := Status.cancelled, updatedAt := now } else n))
  ∧ (∀ m ∈ (cancelRideNotifications now rid q).1, m.rideRequestUuid = some rid →
      m.status ≠ Status.pending ∧ m.status ≠ Status.processing)
  ∧ ((cancelRideNotifications now rid q).2 = q.countP (fun n =>
      n.rideRequestUuid == some rid &&
        (n.status == Status.pending || n.status == Status.processing))) := by
  have hfun : ∀ n : NotificationItem,
      (if (n.rideRequestUuid == some rid &&
            (n.status == Status.pending || n.status == Status.processing)) = true
        then { n with status := Status.cancelled, updatedAt := now } else n) =
      (if n.rideRequestUuid = some rid ∧
            (n.status = Status.pending ∨ n.status = Status.processing)
        then { n with status := Status.cancelled, updatedAt := now } else n) := by
    intro n
    by_cases h1 : n.rideRequestUuid = some rid
    · by_cases h2 : n.status = Status.pending ∨ n.status = Status.processing
      · rcases h2 with h | h <;> simp [h1, h]
      · push_neg at h2
        simp [h1, h2.1, h2.2]
    · simp [h1]
  have hmapeq : (cancelRideNotifications now rid q).1 = List.map (fun n =>
      if n.rideRequestUuid = some rid ∧
          (n.status = Status.pending ∨ n.status = Status.processing)
        then { n with status := Status.cancelled, updatedAt := now } else n) q := by
    show List.map _ q = List.map _ q
    rw [funext hfun]
  refine ⟨?_, ?_, ?_, ?_⟩
  · rw [hmapeq, List.length_map]
  · intro i
    rw [hmapeq, List.getElem?_map]
  · intro m hm hmr
    rw [hmapeq] at hm
    rcases List.mem_map.mp hm with ⟨n, hn, hgn⟩
    by_cases hc : n.rideRequestUuid = some rid ∧
        (n.status = Status.pending ∨ n.status = Status.processing)
    · rw [← hgn, if_pos hc]
      exact ⟨fun h => Status.noConfusion h, fun h => Status.noConfusion h⟩
    · rw [← hgn, if_neg hc]
      have hA : n.rideRequestUuid = some rid := by
        rw [← hgn, if_neg hc] at hmr
        exact hmr
      exact ⟨fun h => hc ⟨hA, Or.inl h⟩, fun h => hc ⟨hA, Or.inr h⟩⟩
  · show q.countP _ = q.countP _
    apply List.countP_congr
    intro n _
    constructor
    · intro h
      exact (Bool.and_eq_true _ _).mp h |>.1
    · intro h
      have hcond := h
      simp only [Bool.and_eq_true, Bool.or_eq_true, beq_iff_eq] at hcond
      have hne : ({ n with status := Status.cancelled, updatedAt := now } :
          NotificationItem) ≠ n := by
        intro heq
        have h3 := congrArg NotificationItem.status heq
        rcases hcond.2 with h2 | h2 <;> rw [h2] at h3 <;> exact Status.noConfusion h3
      simp [h, hne]

/-- C6 witness: on the concrete mixed queue, cancelling ride-1 cancels exactly
the one tied pending document, leaves the sent document and the other ride's
processing document untouched, and returns 1. -/
theorem C6_cancel_by_correlation_witness :
    ((cancelRideNotifications 9 "ride-1" qCorr).2 = 1)
  ∧ ((cancelRideNotifications 9 "ride-1" qCorr).1.map (fun n => n.status) =
      [Status.cancelled, Status.sent, Status.processing]) := by
  have h := C6_cancel_by_correlation 9 "ride-1" qCorr
  exact ⟨h.2.2.2.trans (by decide), by decide⟩

end DispatchBot
